import Mathlib

/-
  Verification of the FedEx carrier-gateway component
  (src/app/services/fedex_client.py) against its specification.

  The Python module is shallowly embedded: JSON values are an inductive
  type, Python dictionaries are association lists, machine floats carry no
  arithmetic here and are modelled as rationals, exceptions are an explicit
  error type threaded through Except, and the mutable client state
  (cached token, HTTP-call trace, audit records, written files) is passed
  explicitly.  The HTTP transport is an oracle: a function from the index
  of the outbound call to the response it returns.  Each operation takes
  the value that time.time() returns during the call as a parameter
  (the operations are modelled as instantaneous).
-/

namespace FedExSpec

/-- JSON values as handled by the Python client.  Numbers are modelled as
rationals; the code under verification never does arithmetic on them beyond
identity and one multiplication, so no floating-point rounding is involved. -/
inductive Json where
  | null
  | bool (b : Bool)
  | num (q : Rat)
  | str (s : String)
  | arr (elems : List Json)
  | obj (fields : List (String × Json))
deriving Repr

/-- Python exceptions that the embedded code can raise.  HTTPException is the
shape used by the source for its error taxonomy (UnsupportedServiceError,
AuthError and CarrierError from the spec all surface as HTTPException there);
nameError models a reference to an unbound variable; exn collapses the
remaining exception classes (TypeError, AttributeError, IndexError, KeyError,
binascii.Error), which the source never distinguishes: it only ever catches
them with a bare except clause. -/
inductive PyErr where
  | httpError (statusCode : Nat) (detail : String)
  | nameError (n : String)
  | exn
deriving Repr, DecidableEq

/-- Association-list lookup for JSON objects (Python dict lookup). -/
def jlookup : List (String × Json) → String → Option Json
  | [], _ => none
  | (k, v) :: rest, key => if k = key then some v else jlookup rest key

/-- Python truthiness on JSON values. -/
def truthy : Json → Bool
  | .null => false
  | .bool b => b
  | .num q => q ≠ 0
  | .str s => s ≠ ""
  | .arr l => !l.isEmpty
  | .obj l => !l.isEmpty

/-- Python truthiness of an optional string argument (None or str). -/
def truthyOptStr : Option String → Bool
  | none => false
  | some s => s ≠ ""

/-- Python d.get(key, default): requires a dict (AttributeError otherwise);
a key mapped to JSON null yields null (Python None), a missing key yields
the default. -/
def dGet (j : Json) (key : String) (default : Json) : Except PyErr Json :=
  match j with
  | .obj kvs => .ok ((jlookup kvs key).getD default)
  | _ => .error .exn

/-- Python x[0]: first element of a list, first character of a string
(as a one-character string); anything else raises (IndexError, KeyError on
dicts whose keys are JSON strings, TypeError on the rest). -/
def pyIndex0 : Json → Except PyErr Json
  | .arr (x :: _) => .ok x
  | .str s =>
    match s.data with
    | c :: _ => .ok (.str (String.singleton c))
    | [] => .error .exn
  | _ => .error .exn

/-- Python iteration: a list yields its elements, a dict yields its keys,
a string yields its characters as one-character strings; other values raise
TypeError. -/
def pyIter : Json → Except PyErr (List Json)
  | .arr l => .ok l
  | .obj kvs => .ok (kvs.map (fun kv => Json.str kv.1))
  | .str s => .ok (s.data.map (fun c => Json.str (String.singleton c)))
  | _ => .error .exn

/-- Python float(x) on JSON values: numbers pass through, booleans coerce to
0/1, None and containers raise TypeError.  Parsing of numeric strings is not
modelled (no claim and no theorem below feeds a string to float). -/
def pyFloat : Json → Except PyErr Rat
  | .num q => .ok q
  | .bool b => .ok (if b then 1 else 0)
  | _ => .error .exn

/-- Python numeric coercion for addition with a float (time.time() +
expires_in): numbers and booleans are numeric, everything else raises
TypeError. -/
def pyToNum : Json → Except PyErr Rat
  | .num q => .ok q
  | .bool b => .ok (if b then 1 else 0)
  | _ => .error .exn

/-- Python x * y as used for price * quantity: modelled for numeric operands
(booleans coerce); sequence replication and other exotic cases raise here,
which no claim exercises. -/
def pyMul (x y : Json) : Except PyErr Json := do
  let a ← pyToNum x
  let b ← pyToNum y
  pure (Json.num (a * b))

/-- Forward service-type map (SERVICE_TYPE_MAP in the source). -/
def SERVICE_TYPE_MAP : List (String × String) :=
  [ ("FIP", "INTERNATIONAL_PRIORITY"),
    ("IPE", "INTERNATIONAL_PRIORITY_EXPRESS"),
    ("FIE", "INTERNATIONAL_ECONOMY"),
    ("RE", "FEDEX_REGIONAL_ECONOMY"),
    ("PO", "PRIORITY_OVERNIGHT"),
    ("FICP", "FEDEX_INTERNATIONAL_CONNECT_PLUS"),
    ("IPF", "INTERNATIONAL_PRIORITY_FREIGHT"),
    ("IEF", "INTERNATIONAL_ECONOMY_FREIGHT"),
    ("REF", "INTERNATIONAL_ECONOMY_FREIGHT"),
    ("RETURNS", "INTERNATIONAL_PRIORITY"),
    ("FIRST", "FEDEX_FIRST"),
    ("FP", "FEDEX_PRIORITY") ]

/-- Reverse service-type map (SERVICE_TYPE_REVERSE_MAP in the source). -/
def SERVICE_TYPE_REVERSE_MAP : List (String × String) :=
  [ ("INTERNATIONAL_PRIORITY", "FIP"),
    ("INTERNATIONAL_PRIORITY_EXPRESS", "IPE"),
    ("INTERNATIONAL_ECONOMY", "FIE"),
    ("FEDEX_REGIONAL_ECONOMY", "RE"),
    ("PRIORITY_OVERNIGHT", "PO"),
    ("FEDEX_INTERNATIONAL_CONNECT_PLUS", "FICP"),
    ("INTERNATIONAL_PRIORITY_FREIGHT", "IPF"),
    ("INTERNATIONAL_ECONOMY_FREIGHT", "IEF"),
    ("FEDEX_FIRST", "FIRST"),
    ("FEDEX_PRIORITY", "FP") ]

/-- String-keyed lookup in the service maps. -/
def smLookup : List (String × String) → String → Option String
  | [], _ => none
  | (k, v) :: rest, key => if k = key then some v else smLookup rest key

/-- The FedExAccount dataclass. -/
structure FedExAccount where
  id : Int
  name : String
  accountNumber : String
  meterNumber : Option String
  apiKey : String
  apiSecret : String
  isFreight : Bool
deriving Repr, DecidableEq

/-- The duck-typed shipper record: exactly the attributes the client reads.
The nullable columns (company, email) are modelled as strings since no claim
exercises null shipper fields. -/
structure Shipper where
  personName : String
  company : String
  phoneNumber : String
  email : String
  streetLines : String
  city : String
  stateCode : String
  postalCode : String
  countryCode : String
deriving Repr, DecidableEq

/-- The RateQuote dataclass.  service_type and currency are duck-typed in the
source (the parser can store non-string values there), so they stay Json;
amount has passed through float() and is numeric. -/
structure RateQuote where
  serviceType : Json
  amount : Rat
  currency : Json
deriving Repr

/-- One outbound HTTP response as seen by the client: the status code, the
raw text (used in error details and audit records) and the parsed JSON body
(response.json(); responses with unparseable bodies are not modelled, no
claim exercises them). -/
structure HttpResponse where
  statusCode : Nat
  text : String
  body : Json
deriving Repr

/-- One outbound HTTP call: endpoint and JSON (or form) payload. -/
structure CallRec where
  endpoint : String
  payload : Json
deriving Repr

/-- One audit record (the ApiLog row written by _log_interaction; the source
also writes one JSON file per record into LOG_DIR with the same fields, so
the two sinks have equal cardinality and the row stands for both).  The
textual json.dumps serialization of the request is not modelled: the request
is kept as its JSON value. -/
structure AuditRec where
  accountId : Option Int
  endpoint : String
  method : String
  request : Json
  response : String
  statusCode : Option Nat
deriving Repr

/-- Content of a file written by the client. -/
inductive FileContent where
  | binary (data : List Nat)
  | text (s : String)
  | jsonText (j : Json)
deriving Repr

/-- A file written by the client (label or proof-of-delivery artifact). -/
structure SavedFile where
  path : String
  content : FileContent
deriving Repr

/-- Mutable state of one FedExClient instance plus its observable effects:
the cached token and its expiry, the number of outbound calls made, the
trace of those calls, the audit records committed, and the files written.
_access_token is str or None in the source but receives whatever
payload.get returns, so it is a Json value with null standing for None. -/
structure Sys where
  accessToken : Json
  tokenExpiry : Rat
  nCalls : Nat
  calls : List CallRec
  audit : List AuditRec
  labels : List SavedFile
deriving Repr

/-- Fresh client state (constructor: no token, expiry 0, no effects yet). -/
def Sys.init : Sys :=
  { accessToken := .null, tokenExpiry := 0, nCalls := 0,
    calls := [], audit := [], labels := [] }

/-- The environment of one call: the transport oracle (response to the n-th
outbound call of this client), the value time.time() returns during the
call, and the account the client was built with. -/
structure Env where
  responses : Nat → HttpResponse
  now : Rat
  account : FedExAccount

/-- One outbound POST: consumes the next oracle response and records the
call. -/
def httpPost (env : Env) (endpoint : String) (payload : Json) (s : Sys) :
    HttpResponse × Sys :=
  (env.responses s.nCalls,
   { s with nCalls := s.nCalls + 1,
            calls := s.calls ++ [{ endpoint := endpoint, payload := payload }] })

/-- _log_interaction: appends one audit record (ApiLog row committed to the
db; a parallel JSON file with the same fields goes to LOG_DIR).  The account
is always present on a constructed client, so account_id is its id. -/
def logInteraction (env : Env) (endpoint method : String) (request : Json)
    (statusCode : Option Nat) (response : String) (s : Sys) : Sys :=
  { s with audit := s.audit ++
      [{ accountId := some env.account.id, endpoint := endpoint,
         method := method, request := request, response := response,
         statusCode := statusCode }] }

/-- The form payload of the OAuth client-credentials exchange. -/
def oauthForm (acct : FedExAccount) : Json :=
  .obj [ ("grant_type", .str ("client_credentials")),
         ("client_id", .str acct.apiKey),
         ("client_secret", .str acct.apiSecret) ]

/-- _get_access_token: returns the cached token when one exists (truthy) and
the current time is more than 30 seconds before the recorded expiry;
otherwise performs one client-credentials exchange, audits it, fails with a
502 HTTPException on a non-200 status, stores the returned token (then the
expiry now + expires_in, default 3600) and fails with a 502 HTTPException
when the stored token is not truthy.  Mirrors source lines 125-150,
including the detail that the token is stored before the expiry is computed
and before the missing-token check. -/
def getAccessToken (env : Env) (s : Sys) : Except PyErr Json × Sys :=
  if truthy s.accessToken ∧ env.now < s.tokenExpiry - 30 then
    (.ok s.accessToken, s)
  else
    let data := oauthForm env.account
    let (r, s1) := httpPost env ("/oauth/token") data s
    let s2 := logInteraction env ("/oauth/token") ("POST") data
      (some r.statusCode) r.text s1
    if r.statusCode ≠ 200 then
      (.error (.httpError 502 ("FedEx auth failed: " ++ r.text)), s2)
    else
      match dGet r.body ("access_token") .null with
      | .error e => (.error e, s2)
      | .ok tokenVal =>
        let s3 := { s2 with accessToken := tokenVal }
        match dGet r.body ("expires_in") (.num 3600) with
        | .error e => (.error e, s3)
        | .ok expiresVal =>
          match pyToNum expiresVal with
          | .error e => (.error e, s3)
          | .ok expiresIn =>
            let s4 := { s3 with tokenExpiry := env.now + expiresIn }
            if ¬ truthy tokenVal then
              (.error (.httpError 502 ("FedEx auth token missing")), s4)
            else
              (.ok tokenVal, s4)

/-- Json null test (Python x is None). -/
def Json.isNull : Json → Bool
  | .null => true
  | _ => false

/-- The street-lines list comprehension of _shipper_address: split on commas,
strip whitespace, drop empties. -/
def splitStreetLines (s : String) : List String :=
  ((s.splitOn (",")).map String.trim).filter (fun l => l ≠ "")

/-- _shipper_address (also _shipper_object, which just delegates to it). -/
def shipperAddress (sh : Shipper) : Json :=
  .obj [ ("contact", .obj [
            ("personName", .str sh.personName),
            ("companyName", .str sh.company),
            ("phoneNumber", .str sh.phoneNumber),
            ("emailAddress", .str sh.email) ]),
         ("address", .obj [
            ("streetLines", .arr ((splitStreetLines sh.streetLines).map Json.str)),
            ("city", .str sh.city),
            ("stateOrProvinceCode", .str sh.stateCode),
            ("postalCode", .str sh.postalCode),
            ("countryCode", .str sh.countryCode) ]) ]

/-- The rate-request payload of get_rate, source lines 190-215.  The dict
literal in the source is brace-unbalanced: a stray closing brace at line 194
ends requestedShipment right after its shipper entry and leaves line 213
with an unmatched brace, so the module as written fails to compile (settled
under claim C6).  This definition follows the structure that the literal's
indentation and the line 212-213 closers dictate, the only reading under
which the literal is well formed: all the remaining entries live inside
requestedShipment.  The serviceType entry mirrors the conditional update of
lines 214-215, reached only after validation guaranteed a forward mapping
for a truthy service code. -/
def rateRequestedShipment (weightKg : Rat) (shipper : Shipper)
    (recipient : List (String × Json)) (serviceType : Option String) :
    List (String × Json) :=
  let rsBase : List (String × Json) :=
    [ ("shipper", shipperAddress shipper),
      ("recipient", .obj [("address", .obj [
          ("postalCode", (jlookup recipient ("postal_code")).getD .null),
          ("countryCode", (jlookup recipient ("country")).getD .null) ])]),
      ("pickupType", .str ("USE_SCHEDULED_PICKUP")),
      ("rateRequestType", .arr [.str ("ACCOUNT"), .str ("LIST")]),
      ("requestedPackageLineItems", .arr [.obj [("weight", .obj [
          ("units", .str ("KG")), ("value", .num weightKg) ])]]),
      ("preferredCurrency", .str ("EUR")) ]
  if truthyOptStr serviceType then
    rsBase ++ [("serviceType",
      .str ((smLookup SERVICE_TYPE_MAP (serviceType.getD (""))).getD ("")))]
  else rsBase

/-- The full rate payload: account number plus the requested shipment. -/
def rateRequestBody (acct : FedExAccount) (weightKg : Rat) (shipper : Shipper)
    (recipient : List (String × Json)) (serviceType : Option String) : Json :=
  .obj [ ("accountNumber", .obj [("value", .str acct.accountNumber)]),
         ("requestedShipment",
          .obj (rateRequestedShipment weightKg shipper recipient serviceType)) ]

/-- The expression SERVICE_TYPE_REVERSE_MAP.get(fedex_service,
fedex_service or "") of source line 231, evaluated on an arbitrary JSON
value: strings are looked up with themselves as fallback (an empty string
falls back to the empty-string default), None and false and zero are
replaced by the empty string, other hashable non-strings miss the lookup and
pass through, unhashable values (lists, dicts) raise TypeError. -/
def reverseServiceLookup : Json → Except PyErr Json
  | .str s => .ok (.str ((smLookup SERVICE_TYPE_REVERSE_MAP s).getD s))
  | .null => .ok (.str (""))
  | .bool b => .ok (if b then Json.bool true else .str (""))
  | .num q => .ok (if q ≠ 0 then Json.num q else .str (""))
  | .arr _ => .error .exn
  | .obj _ => .error .exn

/-- One iteration of the rate-parsing loop, source lines 229-246: resolve
the service code (the requested one when truthy, short-circuiting the
reverse lookup, else the reverse-mapped carrier string), skip the entry when
ratedShipmentDetails is missing or falsy, read the first rated detail's
totalNetCharge (default an empty dict) and currency, skip when the charge is
None, convert the charge with float.  Returns none for a skipped entry. -/
def parseEntry (requested : Option String) (details : Json) :
    Except PyErr (Option RateQuote) := do
  let fedexService ← dGet details ("serviceType") .null
  let serviceCode ←
    (if truthyOptStr requested then pure (Json.str (requested.getD ("")))
     else reverseServiceLookup fedexService)
  let rated ← dGet details ("ratedShipmentDetails") (.arr [])
  if ¬ truthy rated then
    pure none
  else do
    let rated0 ← pyIndex0 rated
    let totalCharge ← dGet rated0 ("totalNetCharge") (.obj [])
    let currency ← dGet rated0 ("currency") (.obj [])
    if totalCharge.isNull then
      pure none
    else do
      let amount ← pyFloat totalCharge
      pure (some { serviceType := serviceCode, amount := amount,
                   currency := currency })

/-- The rate-parsing loop over the rateReplyDetails entries, in carrier
order; an exception in any iteration aborts the loop. -/
def parseEntries (requested : Option String) :
    List Json → Except PyErr (List RateQuote)
  | [] => .ok []
  | d :: rest => do
    let q ← parseEntry requested d
    let qs ← parseEntries requested rest
    pure (match q with | some quote => quote :: qs | none => qs)

/-- The try block of source lines 227-248: extract output.rateReplyDetails
(with empty-container defaults), iterate, and on any exception discard every
quote parsed so far (except Exception: quotes = []). -/
def parseRateQuotes (payload : Json) (requested : Option String) :
    List RateQuote :=
  match (do
    let output ← dGet payload ("output") (.obj [])
    let detailsList ← dGet output ("rateReplyDetails") (.arr [])
    let items ← pyIter detailsList
    parseEntries requested items : Except PyErr (List RateQuote)) with
  | .ok qs => qs
  | .error _ => []

/-- Detail string of the local-validation failure (HTTP 400). -/
def unsupportedDetail : String := "Unsupported service type"

/-- Detail string of the missing-rate carrier failure (HTTP 502). -/
def rateMissingDetail : String := "FedEx rate missing in response"

/-- get_rate, source lines 180-256: validate the service code against the
forward map (only a truthy code is validated, and validation precedes
everything else), build the rate payload, acquire the bearer token (the
auth-headers argument is evaluated before the POST, so a token exchange and
its audit happen first), POST the rate request, audit it, fail with 502 on a
non-200 status, parse the quotes, and fail with 502 when no quotes were
parsed: once when a specific service was requested (line 250) and once
unconditionally (line 253). -/
def getRate (env : Env) (weightKg : Rat) (shipper : Shipper)
    (recipient : List (String × Json)) (serviceType : Option String)
    (s : Sys) : Except PyErr (List RateQuote) × Sys :=
  if truthyOptStr serviceType ∧
      (smLookup SERVICE_TYPE_MAP (serviceType.getD (""))).isNone then
    (.error (.httpError 400 unsupportedDetail), s)
  else
    let body := rateRequestBody env.account weightKg shipper recipient serviceType
    match getAccessToken env s with
    | (.error e, s1) => (.error e, s1)
    | (.ok _, s1) =>
      let (r, s2) := httpPost env ("/rate/v1/rates/quotes") body s1
      let s3 := logInteraction env ("/rate/v1/rates/quotes") ("POST") body
        (some r.statusCode) r.text s2
      if r.statusCode ≠ 200 then
        (.error (.httpError 502 ("FedEx rate error: " ++ r.text)), s3)
      else
        let quotes := parseRateQuotes r.body serviceType
        if truthyOptStr serviceType ∧ quotes.isEmpty then
          (.error (.httpError 502 rateMissingDetail), s3)
        else if quotes.isEmpty then
          (.error (.httpError 502 rateMissingDetail), s3)
        else
          (.ok quotes, s3)

/-- One commodity line of the customs block, source lines 281-301.  The
caller-supplied items reach this code as plain dicts: the pydantic branch
item.dict(exclude_none=True) raises AttributeError on a dict and the except
branch keeps the item as is, which is the path modelled here. -/
def buildCommodityLine (item : List (String × Json)) : Except PyErr Json := do
  let desc := (jlookup item ("description")).getD .null
  let quantity := (jlookup item ("quantity")).getD .null
  let price := (jlookup item ("price")).getD .null
  let l1 : List (String × Json) := [("description", desc)]
  let l2 : List (String × Json) :=
    if truthy quantity then
      [("quantity", quantity), ("quantityUnits", .str ("PCS"))]
    else []
  let l3 ←
    (if price.isNull then pure []
     else do
       let base : List (String × Json) :=
         [("unitPrice", .obj [("currency", .str ("EUR")), ("amount", price)])]
       if truthy quantity then do
         let cv ← pyMul price quantity
         pure (base ++ [("customsValue",
           .obj [("currency", .str ("EUR")), ("amount", cv)])])
       else pure base)
  let weightValue :=
    (let w := (jlookup item ("weight_kg")).getD .null
     if truthy w then w else (jlookup item ("weight")).getD .null)
  let l4 ←
    (if truthy weightValue then do
       let wv ← pyFloat weightValue
       pure [("weight", .obj [("units", .str ("KG")), ("value", Json.num wv)])]
     else pure ([] : List (String × Json)))
  pure (Json.obj (l1 ++ l2 ++ l3 ++ l4))

/-- The commodity-lines preamble of create_shipment, source lines 278-311:
nothing when customs is off; otherwise one line per supplied commodity (an
exception there propagates out of create_shipment uncaught), and when the
result is empty the synthetic placeholder commodity whose weight is
float(recipient.get("weight", 10)). -/
def buildCommodityLines (includeCustoms : Bool)
    (commodities : List (List (String × Json)))
    (recipient : List (String × Json)) : Except PyErr (List Json) := do
  if includeCustoms then do
    let lines ←
      (if commodities.isEmpty then pure []
       else commodities.mapM buildCommodityLine)
    if lines.isEmpty then do
      let w ← pyFloat ((jlookup recipient ("weight")).getD (Json.num 10))
      pure [Json.obj [
        ("description", .str ("PVC Window")),
        ("quantity", Json.num 1),
        ("quantityUnits", .str ("PCS")),
        ("weight", .obj [("units", .str ("KG")), ("value", Json.num w)]) ]]
    else pure lines
  else pure []

/-- create_shipment, source lines 258-462.  After the forward-map validation
(line 275, the first statement) and the commodity-lines preamble, the body
dict literal of lines 313-354 is evaluated entry by entry; the entries
before line 336 (account number, label constants, the shipper object, the
recipient contact and address fields) are pure on dict-shaped recipients,
and line 336 then reads the name actual_service, which is bound nowhere in
the function or module.  Evaluation therefore raises NameError there, before
the return-override of lines 356-361 (whose default argument reads the same
unbound name), before any token acquisition and before any outbound HTTP
call, for every forward-mapped service code.  The response-handling segment
of lines 449-462 is modelled separately as shipResponseHandle below. -/
def createShipment (env : Env) (shipmentId : Int) (destination : String)
    (serviceType : String) (recipient : List (String × Json))
    (shipper : Shipper) (includeCustoms : Bool)
    (commodities : List (List (String × Json)))
    (broker : Option Shipper) (brokerOption : Bool)
    (thirdPartyConsignee : Bool) (shipAlertEmails : List String)
    (etdDocuments : List (List (String × Json)))
    (isReturn : Bool) (returnReference : Option String)
    (s : Sys) : Except PyErr (Json × String) × Sys :=
  if (smLookup SERVICE_TYPE_MAP serviceType).isNone then
    (.error (.httpError 400 unsupportedDetail), s)
  else
    match buildCommodityLines includeCustoms commodities recipient with
    | .error e => (.error e, s)
    | .ok _ => (.error (.nameError ("actual_service")), s)

/-- _extract_tracking, source lines 464-476: the first transaction
shipment's master tracking number when truthy, else the first piece
response's tracking number when piece responses exist, else None; any
exception yields None. -/
def extractTracking (payload : Json) : Json :=
  match (do
    let output ← dGet payload ("output") (.obj [])
    let shipments ← dGet output ("transactionShipments") (.arr [])
    if truthy shipments then do
      let s0 ← pyIndex0 shipments
      let master ← dGet s0 ("masterTrackingNumber") .null
      if truthy master then pure master
      else do
        let prs ← dGet s0 ("pieceResponses") (.arr [])
        if truthy prs then do
          let p0 ← pyIndex0 prs
          dGet p0 ("trackingNumber") .null
        else pure Json.null
    else pure Json.null : Except PyErr Json) with
  | .ok v => v
  | .error _ => .null

/-- The standard base64 alphabet. -/
def b64alphabet : String :=
  "ABCDEFGHIJKLMNOPQRSTUVWXYZabcdefghijklmnopqrstuvwxyz0123456789+/"

/-- Index of a character in the base64 alphabet. -/
def b64val (c : Char) : Option Nat :=
  b64alphabet.data.findIdx? (fun x => x = c)

/-- Decode a filtered base64 character stream four characters at a time;
none models binascii.Error (incorrect padding).  Data after a padded final
quad is ignored, matching the default leniency of the Python decoder. -/
def b64quads : List Char → Option (List Nat)
  | [] => some []
  | a :: b :: c :: d :: rest =>
    (match b64val a, b64val b with
     | some va, some vb =>
       if c = '=' then
         if d = '=' then some [va * 4 + vb / 16] else none
       else
         (match b64val c with
          | some vc =>
            if d = '=' then
              some [va * 4 + vb / 16, (vb % 16) * 16 + vc / 4]
            else
              (match b64val d with
               | some vd =>
                 (b64quads rest).map (fun bs =>
                   (va * 4 + vb / 16) :: ((vb % 16) * 16 + vc / 4) ::
                   ((vc % 4) * 64 + vd) :: bs)
               | none => none)
          | none => none)
     | _, _ => none)
  | _ => none

/-- base64.b64decode on a string: characters outside the alphabet and the
padding sign are discarded first (default non-validating mode), then the
stream is decoded in quads; none is the binascii.Error case. -/
def b64decode (s : String) : Option (List Nat) :=
  b64quads (s.data.filter (fun c => (b64val c).isSome || c = '='))

/-- base64.b64decode applied to an arbitrary JSON value: non-strings raise
TypeError, undecodable strings raise binascii.Error. -/
def pyB64decode : Json → Except PyErr (List Nat)
  | .str es =>
    (match b64decode es with
     | some bytes => .ok bytes
     | none => .error .exn)
  | _ => .error .exn

/-- The label-bytes extraction of _save_label, source lines 479-489: the
first piece response's first package document's encodedLabel, base64
decoded; any exception on the way (missing levels, empty piece-response
list, failed decode) yields None. -/
def extractLabelBytes (payload : Json) : Option (List Nat) :=
  match (do
    let output ← dGet payload ("output") (.obj [])
    let shipments ← dGet output ("transactionShipments") (.arr [])
    if truthy shipments then do
      let s0 ← pyIndex0 shipments
      let prs ← dGet s0 ("pieceResponses") (.arr [])
      let p0 ← pyIndex0 prs
      let docs ← dGet p0 ("packageDocuments") (.arr [])
      if truthy docs then do
        let d0 ← pyIndex0 docs
        let encoded ← dGet d0 ("encodedLabel") .null
        if truthy encoded then do
          let bytes ← pyB64decode encoded
          pure (some bytes)
        else pure none
      else pure none
    else pure none : Except PyErr (Option (List Nat))) with
  | .ok r => r
  | .error _ => none

/-- The label directory (LABEL_DIR from config, BASE_DIR/labels; the
environment-dependent absolute prefix is elided). -/
def LABEL_DIR : String := "labels"

/-- The deterministic label path of source line 492. -/
def labelPath (shipmentId : Int) : String :=
  LABEL_DIR ++ "/label_" ++ toString shipmentId ++ ".pdf"

/-- The textual fallback label of source lines 497-499. -/
def fallbackLabelText (shipmentId : Int) (destination serviceType : String) :
    String :=
  "FedEx Shipment\nID: " ++ toString shipmentId ++
  "\nDestination: " ++ destination ++ "\nService: " ++ serviceType

/-- _save_label, source lines 478-502: write the decoded label bytes when
extraction produced a non-empty byte string, else the textual fallback
(UTF-8 encoded by the source), always at the deterministic path, and return
that path. -/
def saveLabel (payload : Json) (shipmentId : Int)
    (destination serviceType : String) (s : Sys) : String × Sys :=
  let p := labelPath shipmentId
  let content :=
    match extractLabelBytes payload with
    | some (b :: bs) => FileContent.binary (b :: bs)
    | _ => FileContent.text (fallbackLabelText shipmentId destination serviceType)
  (p, { s with labels := s.labels ++ [{ path := p, content := content }] })

/-- The response-handling segment of create_shipment, source lines 449-462:
reject any status other than 200 or 201 with a 502 HTTPException, extract
the tracking number, persist the label (unconditionally, before the tracking
check), fail with 502 when the tracking number is not truthy, and otherwise
return the tracking number and label path. -/
def shipResponseHandle (r : HttpResponse) (shipmentId : Int)
    (destination serviceType : String) (s : Sys) :
    Except PyErr (Json × String) × Sys :=
  if r.statusCode ≠ 200 ∧ r.statusCode ≠ 201 then
    (.error (.httpError 502 ("FedEx shipment error: " ++ r.text)), s)
  else
    let tracking := extractTracking r.body
    let (lp, s1) := saveLabel r.body shipmentId destination serviceType s
    if ¬ truthy tracking then
      (.error (.httpError 502 ("FedEx tracking missing in response")), s1)
    else
      (.ok (tracking, lp), s1)

/-- track_shipment, source lines 504-524: build the lookup envelope, acquire
the token, POST, audit, fail with 502 on a non-200 status, else return the
parsed body. -/
def trackBody (trackingNumber : String) : Json :=
  .obj [
    ("includeDetailedScans", .bool true),
    ("trackingInfo", .arr [ .obj [ ("trackingNumberInfo",
        .obj [("trackingNumber", .str trackingNumber)]) ] ]) ]

/-- track_shipment, continued: the body above is POSTed after the token. -/
def trackShipment (env : Env) (trackingNumber : String) (s : Sys) :
    Except PyErr Json × Sys :=
  let body : Json := trackBody trackingNumber
  match getAccessToken env s with
  | (.error e, s1) => (.error e, s1)
  | (.ok _, s1) =>
    let (r, s2) := httpPost env ("/track/v1/trackingnumbers") body s1
    let s3 := logInteraction env ("/track/v1/trackingnumbers") ("POST") body
      (some r.statusCode) r.text s2
    if r.statusCode ≠ 200 then
      (.error (.httpError 502 ("FedEx tracking error: " ++ r.text)), s3)
    else
      (.ok r.body, s3)

/-- The proof-of-delivery content extraction of source lines 547-555: the
first proof-of-delivery document's documentContent; any exception yields
None. -/
def spodExtract (payload : Json) : Json :=
  match (do
    let output ← dGet payload ("output") (.obj [])
    let docs ← dGet output ("proofOfDeliveryDocuments") (.arr [])
    let d0 ← pyIndex0 docs
    dGet d0 ("documentContent") .null : Except PyErr Json) with
  | .ok v => v
  | .error _ => .null

/-- request_spod, source lines 526-562: build the envelope with PDF format,
acquire the token, POST, audit, fail with 502 on a non-200 status, else
write the decoded document bytes at the save path when content is present
(a decode failure there is uncaught and propagates with no file written), or
the raw JSON payload as a textual diagnostic otherwise, and return the
path. -/
def spodBody (trackingNumber : String) : Json :=
  .obj [
    ("trackingInfo", .arr [ .obj [ ("trackingNumberInfo",
        .obj [("trackingNumber", .str trackingNumber)]) ] ]),
    ("format", .str ("PDF")) ]

/-- request_spod, continued: the body above is POSTed after the token. -/
def requestSpod (env : Env) (trackingNumber savePath : String) (s : Sys) :
    Except PyErr String × Sys :=
  let body : Json := spodBody trackingNumber
  match getAccessToken env s with
  | (.error e, s1) => (.error e, s1)
  | (.ok _, s1) =>
    let (r, s2) := httpPost env ("/track/v1/proof-of-delivery") body s1
    let s3 := logInteraction env ("/track/v1/proof-of-delivery") ("POST") body
      (some r.statusCode) r.text s2
    if r.statusCode ≠ 200 then
      (.error (.httpError 502 ("FedEx SPOD error: " ++ r.text)), s3)
    else
      let encoded := spodExtract r.body
      if truthy encoded then
        match pyB64decode encoded with
        | .error e => (.error e, s3)
        | .ok bytes =>
          (.ok savePath, { s3 with labels := s3.labels ++
            [{ path := savePath, content := .binary bytes }] })
      else
        (.ok savePath, { s3 with labels := s3.labels ++
          [{ path := savePath, content := .jsonText r.body }] })

/-- The OAuth exchange call record. -/
def oauthCall (acct : FedExAccount) : CallRec :=
  { endpoint := "/oauth/token", payload := oauthForm acct }

/-- The audit record of one OAuth exchange answered by r. -/
def oauthAudit (env : Env) (r : HttpResponse) : AuditRec :=
  { accountId := some env.account.id, endpoint := "/oauth/token",
    method := "POST", request := oauthForm env.account, response := r.text,
    statusCode := some r.statusCode }

/-- Number of token exchanges recorded in the call trace. -/
def oauthExchanges (s : Sys) : Nat :=
  (s.calls.filter (fun c => c.endpoint == "/oauth/token")).length

/-- A successful token-exchange response: bearer tok, expiry E. -/
def authOkResp (tok : String) (expiresIn : Rat) : HttpResponse :=
  { statusCode := 200, text := "auth-ok",
    body := .obj [("access_token", .str tok), ("expires_in", .num expiresIn)] }

theorem getAccessToken_hit (env : Env) (s : Sys)
    (h1 : truthy s.accessToken) (h2 : env.now < s.tokenExpiry - 30) :
    getAccessToken env s = (.ok s.accessToken, s) := by
  unfold getAccessToken
  rw [if_pos ⟨h1, h2⟩]

theorem getAccessToken_fresh_ok (env : Env) (s : Sys) (tok : String) (E : Rat)
    (h : ¬ (truthy s.accessToken ∧ env.now < s.tokenExpiry - 30))
    (hr : env.responses s.nCalls = authOkResp tok E)
    (htok : tok ≠ "") :
    getAccessToken env s =
      (.ok (.str tok),
       { s with accessToken := .str tok, tokenExpiry := env.now + E,
                nCalls := s.nCalls + 1,
                calls := s.calls ++ [oauthCall env.account],
                audit := s.audit ++ [oauthAudit env (authOkResp tok E)] }) := by
  unfold getAccessToken
  rw [if_neg h]
  simp [httpPost, hr, authOkResp, logInteraction, dGet, jlookup, pyToNum,
        truthy, htok, oauthCall, oauthAudit, oauthForm]

theorem getAccessToken_miss_trace (env : Env) (s : Sys)
    (h : ¬ (truthy s.accessToken ∧ env.now < s.tokenExpiry - 30)) :
    (getAccessToken env s).2.nCalls = s.nCalls + 1 ∧
    (getAccessToken env s).2.calls = s.calls ++ [oauthCall env.account] ∧
    (getAccessToken env s).2.audit =
      s.audit ++ [oauthAudit env (env.responses s.nCalls)] := by
  unfold getAccessToken
  rw [if_neg h]
  simp only [httpPost, logInteraction, oauthCall, oauthAudit]
  split
  all_goals try split
  all_goals try split
  all_goals try split
  all_goals try split
  all_goals exact ⟨rfl, rfl, rfl⟩


theorem getAccessToken_miss_fail (env : Env) (s : Sys)
    (h : ¬ (truthy s.accessToken ∧ env.now < s.tokenExpiry - 30))
    (hst : (env.responses s.nCalls).statusCode ≠ 200) :
    (getAccessToken env s).1 =
      .error (.httpError 502 ("FedEx auth failed: " ++ (env.responses s.nCalls).text)) := by
  unfold getAccessToken
  rw [if_neg h]
  simp [httpPost, logInteraction, hst]

theorem getAccessToken_token_missing (env : Env) (s : Sys)
    (kvs : List (String × Json)) (E : Rat)
    (h : ¬ (truthy s.accessToken ∧ env.now < s.tokenExpiry - 30))
    (hr200 : (env.responses s.nCalls).statusCode = 200)
    (hbody : (env.responses s.nCalls).body = .obj kvs)
    (hE : pyToNum ((jlookup kvs ("expires_in")).getD (.num 3600)) = .ok E)
    (hmissing : ¬ truthy ((jlookup kvs ("access_token")).getD .null)) :
    (getAccessToken env s).1 = .error (.httpError 502 ("FedEx auth token missing")) := by
  unfold getAccessToken
  rw [if_neg h]
  simp [httpPost, logInteraction, hr200, hbody, dGet, hE, hmissing]

theorem getAccessToken_token_ok (env : Env) (s : Sys)
    (kvs : List (String × Json)) (tokv : Json) (E : Rat)
    (h : ¬ (truthy s.accessToken ∧ env.now < s.tokenExpiry - 30))
    (hr200 : (env.responses s.nCalls).statusCode = 200)
    (hbody : (env.responses s.nCalls).body = .obj kvs)
    (htokv : (jlookup kvs ("access_token")).getD .null = tokv)
    (htr : truthy tokv)
    (hE : pyToNum ((jlookup kvs ("expires_in")).getD (.num 3600)) = .ok E) :
    getAccessToken env s =
      (.ok tokv,
       { s with accessToken := tokv, tokenExpiry := env.now + E,
                nCalls := s.nCalls + 1,
                calls := s.calls ++ [oauthCall env.account],
                audit := s.audit ++ [oauthAudit env (env.responses s.nCalls)] }) := by
  unfold getAccessToken
  rw [if_neg h]
  simp [httpPost, logInteraction, hr200, hbody, dGet, htokv, hE, htr,
        oauthCall, oauthAudit]

/-- The rate call record of one get_rate POST. -/
def rateCallRec (acct : FedExAccount) (w : Rat) (sh : Shipper)
    (rec : List (String × Json)) (st : Option String) : CallRec :=
  { endpoint := "/rate/v1/rates/quotes",
    payload := rateRequestBody acct w sh rec st }

/-- The audit record of one get_rate POST answered by r. -/
def rateAuditRec (env : Env) (r : HttpResponse) (body : Json) : AuditRec :=
  { accountId := some env.account.id, endpoint := "/rate/v1/rates/quotes",
    method := "POST", request := body, response := r.text,
    statusCode := some r.statusCode }

theorem getRate_sys (env : Env) (w : Rat) (sh : Shipper)
    (rec : List (String × Json)) (st : Option String) (s : Sys)
    (tokv : Json) (s1 : Sys)
    (hv : ¬ (truthyOptStr st ∧ (smLookup SERVICE_TYPE_MAP (st.getD (""))).isNone))
    (htok : getAccessToken env s = (.ok tokv, s1)) :
    (getRate env w sh rec st s).2 =
      { s1 with
          nCalls := s1.nCalls + 1,
          calls := s1.calls ++ [rateCallRec env.account w sh rec st],
          audit := s1.audit ++ [rateAuditRec env (env.responses s1.nCalls)
            (rateRequestBody env.account w sh rec st)] } := by
  unfold getRate
  rw [if_neg hv, htok]
  simp only [httpPost, logInteraction, rateCallRec, rateAuditRec]
  split
  · rfl
  · split
    · rfl
    · split
      · rfl
      · rfl

theorem getRate_oauth_growth (env : Env) (w : Rat) (sh : Shipper)
    (rec : List (String × Json)) (st : Option String) (s : Sys)
    (hv : ¬ (truthyOptStr st ∧ (smLookup SERVICE_TYPE_MAP (st.getD (""))).isNone)) :
    oauthExchanges (getRate env w sh rec st s).2 =
      oauthExchanges (getAccessToken env s).2 := by
  unfold getRate
  rw [if_neg hv]
  rcases htok : getAccessToken env s with ⟨res, s1⟩
  cases res with
  | error e => simp
  | ok tokv =>
    simp only [httpPost, logInteraction]
    split
    · simp [oauthExchanges, List.filter_append]
    · split
      · simp [oauthExchanges, List.filter_append]
      · split
        · simp [oauthExchanges, List.filter_append]
        · simp [oauthExchanges, List.filter_append]

theorem oauthExchanges_miss (env : Env) (s : Sys)
    (h : ¬ (truthy s.accessToken ∧ env.now < s.tokenExpiry - 30)) :
    oauthExchanges (getAccessToken env s).2 = oauthExchanges s + 1 := by
  have ht := getAccessToken_miss_trace env s h
  simp [oauthExchanges, ht.2.1, List.filter_append, oauthCall]


/-- Claim C3: the token exchange fails with AuthError (HTTPException 502)
exactly when the response status is not 200 or the body carries no usable
token, makes exactly one audited exchange per invocation (never retried
internally), and on success stores the token with expiry now + expires_in
and returns it. -/
theorem claim_C3 (env : Env) (s : Sys) (kvs : List (String × Json)) (E : Rat)
    (hmiss : ¬ (truthy s.accessToken ∧ env.now < s.tokenExpiry - 30))
    (hbody : (env.responses s.nCalls).body = .obj kvs)
    (hE : pyToNum ((jlookup kvs ("expires_in")).getD (.num 3600)) = .ok E) :
    ((getAccessToken env s).2.nCalls = s.nCalls + 1 ∧
     (getAccessToken env s).2.calls = s.calls ++ [oauthCall env.account] ∧
     (getAccessToken env s).2.audit =
       s.audit ++ [oauthAudit env (env.responses s.nCalls)]) ∧
    ((env.responses s.nCalls).statusCode ≠ 200 →
      (getAccessToken env s).1 =
        .error (.httpError 502
          ("FedEx auth failed: " ++ (env.responses s.nCalls).text))) ∧
    ((env.responses s.nCalls).statusCode = 200 →
      ¬ truthy ((jlookup kvs ("access_token")).getD .null) →
      (getAccessToken env s).1 =
        .error (.httpError 502 ("FedEx auth token missing"))) ∧
    ((env.responses s.nCalls).statusCode = 200 →
      ∀ tokv, (jlookup kvs ("access_token")).getD .null = tokv →
      truthy tokv →
      getAccessToken env s =
        (.ok tokv,
         { s with accessToken := tokv, tokenExpiry := env.now + E,
                  nCalls := s.nCalls + 1,
                  calls := s.calls ++ [oauthCall env.account],
                  audit := s.audit ++ [oauthAudit env (env.responses s.nCalls)] })) :=
  ⟨getAccessToken_miss_trace env s hmiss,
   fun hst => getAccessToken_miss_fail env s hmiss hst,
   fun h200 hm => getAccessToken_token_missing env s kvs E hmiss h200 hbody hE hm,
   fun h200 tokv htokv htr =>
     getAccessToken_token_ok env s kvs tokv E hmiss h200 hbody htokv htr hE⟩

/-- Fixture account for the witnesses. -/
def acctA : FedExAccount :=
  { id := 1, name := "Main", accountNumber := "740561073", meterNumber := none,
    apiKey := "key", apiSecret := "secret", isFreight := false }

/-- Fixture shipper for the witnesses. -/
def shA : Shipper :=
  { personName := "Jan Nowak", company := "Okna", phoneNumber := "123",
    email := "jan@example.com", streetLines := "Ulica 1, Lokal 2",
    city := "Warszawa", stateCode := "MZ", postalCode := "00-001",
    countryCode := "PL" }

/-- Fixture transport answering every call with a successful token
exchange. -/
def respTokA : Nat → HttpResponse := fun _ => authOkResp ("T") 3600

/-- Fixture environment over respTokA at time 1000. -/
def envTokA : Env := { responses := respTokA, now := 1000, account := acctA }

/-- Witness for claim C3 at a concrete successful exchange. -/
theorem claim_C3_witness :
    (getAccessToken envTokA Sys.init).1 = .ok (.str ("T")) ∧
    (getAccessToken envTokA Sys.init).2.accessToken = .str ("T") ∧
    (getAccessToken envTokA Sys.init).2.tokenExpiry = 1000 + 3600 ∧
    (getAccessToken envTokA Sys.init).2.calls = [oauthCall acctA] := by
  have h := claim_C3 envTokA Sys.init
    [("access_token", Json.str ("T")), ("expires_in", Json.num 3600)] 3600
    (by simp [Sys.init, truthy]) rfl rfl
  have hok := h.2.2.2 rfl (.str ("T")) rfl (by simp [truthy])
  refine ⟨?_, ?_, ?_, ?_⟩ <;> rw [hok] <;> rfl

/-- Claim C2: the cached fast path returns the token unchanged with no
network exchange while more than 30 seconds remain before expiry, and two
gateway rate calls from a fresh client perform exactly one token exchange
when the second falls inside the safety margin and exactly two when it
falls outside it. -/
theorem claim_C2 :
    (∀ (env : Env) (s : Sys), truthy s.accessToken →
        env.now < s.tokenExpiry - 30 →
        getAccessToken env s = (.ok s.accessToken, s)) ∧
    (∀ (resp : Nat → HttpResponse) (acct : FedExAccount) (t1 t2 E w : Rat)
        (tok : String) (sh : Shipper) (rec : List (String × Json)),
      resp 0 = authOkResp tok E → tok ≠ "" →
      ((t2 < t1 + E - 30 →
        oauthExchanges (getRate { responses := resp, now := t2, account := acct }
          w sh rec none
          (getRate { responses := resp, now := t1, account := acct }
            w sh rec none Sys.init).2).2 = 1) ∧
       (¬ t2 < t1 + E - 30 →
        oauthExchanges (getRate { responses := resp, now := t2, account := acct }
          w sh rec none
          (getRate { responses := resp, now := t1, account := acct }
            w sh rec none Sys.init).2).2 = 2))) := by
  constructor
  · exact fun env s h1 h2 => getAccessToken_hit env s h1 h2
  · intro resp acct t1 t2 E w tok sh rec hr htok
    have hv : ¬ (truthyOptStr (none : Option String) ∧
        (smLookup SERVICE_TYPE_MAP ((none : Option String).getD (""))).isNone) := by
      simp [truthyOptStr]
    have hfresh := getAccessToken_fresh_ok
      { responses := resp, now := t1, account := acct } Sys.init tok E
      (by simp [Sys.init, truthy]) (by simpa [Sys.init] using hr) htok
    have hrun1 := getRate_sys { responses := resp, now := t1, account := acct }
      w sh rec none Sys.init (.str tok) _ hv hfresh
    constructor
    · intro h2
      have htr : truthy (getRate { responses := resp, now := t1, account := acct }
          w sh rec none Sys.init).2.accessToken := by
        rw [hrun1]; simp [truthy, htok]
      have hlt : ({ responses := resp, now := t2, account := acct } : Env).now <
          (getRate { responses := resp, now := t1, account := acct }
            w sh rec none Sys.init).2.tokenExpiry - 30 := by
        rw [hrun1]; simpa using h2
      rw [getRate_oauth_growth _ w sh rec none _ hv,
          getAccessToken_hit _ _ htr hlt, hrun1]
      rfl
    · intro h2
      have hmiss2 : ¬ (truthy (getRate { responses := resp, now := t1, account := acct }
            w sh rec none Sys.init).2.accessToken ∧
          ({ responses := resp, now := t2, account := acct } : Env).now <
            (getRate { responses := resp, now := t1, account := acct }
              w sh rec none Sys.init).2.tokenExpiry - 30) := by
        rintro ⟨-, hlt⟩
        rw [hrun1] at hlt
        exact h2 (by simpa using hlt)
      rw [getRate_oauth_growth _ w sh rec none _ hv,
          oauthExchanges_miss _ _ hmiss2, hrun1]
      rfl

/-- Witness for claim C2: with expires_in 3600 granted at time 1000, a
second rate call at time 2000 reuses the cached token (one exchange) and a
second rate call at time 100000 exchanges again (two). -/
theorem claim_C2_witness :
    oauthExchanges (getRate { responses := respTokA, now := 2000, account := acctA }
      5 shA [] none
      (getRate { responses := respTokA, now := 1000, account := acctA }
        5 shA [] none Sys.init).2).2 = 1 ∧
    oauthExchanges (getRate { responses := respTokA, now := 100000, account := acctA }
      5 shA [] none
      (getRate { responses := respTokA, now := 1000, account := acctA }
        5 shA [] none Sys.init).2).2 = 2 :=
  ⟨(claim_C2.2 respTokA acctA 1000 2000 3600 5 ("T") shA [] rfl (by decide)).1
      (by norm_num),
   (claim_C2.2 respTokA acctA 1000 100000 3600 5 ("T") shA [] rfl (by decide)).2
      (by norm_num)⟩

/-- A 200 rate response with three rateReplyDetails entries, the middle one
lacking ratedShipmentDetails. -/
def rateBody3 : Json := .obj [("output", .obj [("rateReplyDetails", .arr [
  .obj [("serviceType", .str ("INTERNATIONAL_PRIORITY")),
        ("ratedShipmentDetails", .arr [.obj [
          ("totalNetCharge", .num 10), ("currency", .str ("EUR"))]])],
  .obj [("serviceType", .str ("INTERNATIONAL_ECONOMY"))],
  .obj [("serviceType", .str ("FEDEX_FIRST")),
        ("ratedShipmentDetails", .arr [.obj [
          ("totalNetCharge", .num 20), ("currency", .str ("USD"))]])] ])])]

/-- Transport: successful token exchange, then 200 rate responses carrying
rateBody3. -/
def envRates3 : Env :=
  { responses := fun n => if n = 0 then authOkResp ("T") 3600
      else { statusCode := 200, text := "rates", body := rateBody3 },
    now := 1000, account := acctA }

/-- Like rateBody3 but the middle entry has ratedShipmentDetails whose first
element lacks the totalNetCharge key. -/
def rateBodyNoCharge : Json := .obj [("output", .obj [("rateReplyDetails", .arr [
  .obj [("serviceType", .str ("INTERNATIONAL_PRIORITY")),
        ("ratedShipmentDetails", .arr [.obj [
          ("totalNetCharge", .num 10), ("currency", .str ("EUR"))]])],
  .obj [("serviceType", .str ("INTERNATIONAL_ECONOMY")),
        ("ratedShipmentDetails", .arr [.obj [("currency", .str ("EUR"))]])],
  .obj [("serviceType", .str ("FEDEX_FIRST")),
        ("ratedShipmentDetails", .arr [.obj [
          ("totalNetCharge", .num 20), ("currency", .str ("USD"))]])] ])])]

/-- Transport: successful token exchange, then 200 rate responses carrying
rateBodyNoCharge. -/
def envRatesNoCharge : Env :=
  { responses := fun n => if n = 0 then authOkResp ("T") 3600
      else { statusCode := 200, text := "rates", body := rateBodyNoCharge },
    now := 1000, account := acctA }

/-- Transport: successful token exchange, then 200 rate responses with an
empty rateReplyDetails list. -/
def envRatesEmpty : Env :=
  { responses := fun n => if n = 0 then authOkResp ("T") 3600
      else { statusCode := 200, text := "rates",
             body := .obj [("output", .obj [("rateReplyDetails", .arr [])])] },
    now := 1000, account := acctA }

theorem getRate_result_none (env : Env) (w : Rat) (sh : Shipper)
    (rec : List (String × Json)) (s : Sys) (tokv : Json) (s1 : Sys)
    (htok : getAccessToken env s = (.ok tokv, s1))
    (h200 : (env.responses s1.nCalls).statusCode = 200) :
    (getRate env w sh rec none s).1 =
      (if (parseRateQuotes (env.responses s1.nCalls).body none).isEmpty
       then .error (.httpError 502 rateMissingDetail)
       else .ok (parseRateQuotes (env.responses s1.nCalls).body none)) := by
  unfold getRate
  simp [truthyOptStr, htok, httpPost, logInteraction, h200]
  split <;> rfl

/-- Counterexample to claim C4: an entry that has ratedShipmentDetails but
lacks the totalNetCharge key is not skipped; float of the defaulted empty
dict raises, the bare except discards every parsed quote, and the whole
call fails with 502 instead of yielding the other two quotes. -/
theorem claim_C4_counterexample :
    parseRateQuotes rateBodyNoCharge none = [] ∧
    (getRate envRatesNoCharge 5 shA [] none Sys.init).1 =
      .error (.httpError 502 rateMissingDetail) := ⟨rfl, rfl⟩

/-- Claim C4 as amended: quotes come back in carrier order; an entry whose
ratedShipmentDetails key is missing, or whose first rated detail maps
totalNetCharge to null, is skipped without failing the call; but an entry
whose first rated detail lacks the totalNetCharge key altogether aborts the
parse with an exception that discards all quotes; on the concrete 3-entry
response with one entry lacking ratedShipmentDetails, exactly the other two
quotes come back in carrier order. -/
theorem claim_C4 (st : Option String) (fsvc : String)
    (kvs rkvs : List (String × Json)) (tail rest : List Json) (q : RateQuote)
    (hsvc : jlookup kvs ("serviceType") = some (.str fsvc)) :
    (parseRateQuotes rateBody3 none =
      [ { serviceType := .str ("FIP"), amount := 10, currency := .str ("EUR") },
        { serviceType := .str ("FIRST"), amount := 20, currency := .str ("USD") } ] ∧
     (getRate envRates3 5 shA [] none Sys.init).1 =
      .ok [ { serviceType := .str ("FIP"), amount := 10, currency := .str ("EUR") },
            { serviceType := .str ("FIRST"), amount := 20, currency := .str ("USD") } ]) ∧
    (jlookup kvs ("ratedShipmentDetails") = none →
      parseEntries st (.obj kvs :: rest) = parseEntries st rest) ∧
    (jlookup kvs ("ratedShipmentDetails") = some (.arr (.obj rkvs :: tail)) →
      jlookup rkvs ("totalNetCharge") = some .null →
      parseEntries st (.obj kvs :: rest) = parseEntries st rest) ∧
    (jlookup kvs ("ratedShipmentDetails") = some (.arr (.obj rkvs :: tail)) →
      jlookup rkvs ("totalNetCharge") = none →
      parseEntries st (.obj kvs :: rest) = .error .exn) ∧
    (∀ d, parseEntry st d = .ok (some q) →
      parseEntries st (d :: rest) = (parseEntries st rest).map (fun qs => q :: qs)) := by
  refine ⟨⟨rfl, rfl⟩, ?_, ?_, ?_, ?_⟩
  · intro hrd
    cases ht : truthyOptStr st <;>
      cases hrest : parseEntries st rest <;>
        simp [parseEntries, parseEntry, dGet, hsvc, hrd, ht, hrest, truthy,
              reverseServiceLookup, Bind.bind, Except.bind, pure, Except.pure]
  · intro hrd hnull
    cases ht : truthyOptStr st <;>
      cases hrest : parseEntries st rest <;>
        simp [parseEntries, parseEntry, dGet, hsvc, hrd, hnull, ht, hrest,
              truthy, reverseServiceLookup, pyIndex0, Json.isNull,
              Bind.bind, Except.bind, pure, Except.pure]
  · intro hrd hmiss
    cases ht : truthyOptStr st <;>
      simp [parseEntries, parseEntry, dGet, hsvc, hrd, hmiss, ht, truthy,
            reverseServiceLookup, pyIndex0, Json.isNull, pyFloat,
            Bind.bind, Except.bind, pure, Except.pure]
  · intro d hd
    cases hrest : parseEntries st rest <;>
      simp [parseEntries, hd, hrest, Bind.bind, Except.bind, Except.map,
            pure, Except.pure]

/-- Witness for claim C4 at concrete entries: a skipped missing-details
entry, a skipped null-charge entry, a poisoning charge-less entry, and
order preservation for a parsed entry. -/
theorem claim_C4_witness :
    (parseEntries none [.obj [("serviceType", .str ("FEDEX_FIRST"))]] = .ok [] ∧
     parseEntries none [.obj [("serviceType", .str ("FEDEX_FIRST")),
        ("ratedShipmentDetails", .arr [.obj [("totalNetCharge", .null)]])]] = .ok [] ∧
     parseEntries none [.obj [("serviceType", .str ("FEDEX_FIRST")),
        ("ratedShipmentDetails", .arr [.obj [("currency", .str ("EUR"))]])]] =
       .error .exn) := by
  have h := claim_C4 none ("FEDEX_FIRST")
    [("serviceType", Json.str ("FEDEX_FIRST"))] [] [] []
    { serviceType := .str ("FIRST"), amount := 1, currency := .null } rfl
  have h2 := claim_C4 none ("FEDEX_FIRST")
    [("serviceType", Json.str ("FEDEX_FIRST")),
     ("ratedShipmentDetails", Json.arr [Json.obj [("totalNetCharge", Json.null)]])]
    [("totalNetCharge", Json.null)] [] []
    { serviceType := .str ("FIRST"), amount := 1, currency := .null } rfl
  have h3 := claim_C4 none ("FEDEX_FIRST")
    [("serviceType", Json.str ("FEDEX_FIRST")),
     ("ratedShipmentDetails", Json.arr [Json.obj [("currency", Json.str ("EUR"))]])]
    [("currency", Json.str ("EUR"))] [] []
    { serviceType := .str ("FIRST"), amount := 1, currency := .null } rfl
  exact ⟨h.2.1 rfl, h2.2.2.1 rfl rfl, h3.2.2.2.1 rfl rfl⟩

/-- Counterexample to claim C5: with no specific service requested and a 200
response whose rateReplyDetails list is empty, get_rate raises the 502
missing-in-response CarrierError instead of returning the empty list of
quotes. -/
theorem claim_C5_counterexample :
    (getRate envRatesEmpty 5 shA [] none Sys.init).1 =
      .error (.httpError 502 rateMissingDetail) := rfl

/-- Claim C5 as amended: with no specific service requested, get_rate
returns the full parsed quote list when it is non-empty, and raises the 502
missing-in-response CarrierError whenever zero quotes were parsed — the
empty list is never returned, even without a requested service. -/
theorem claim_C5 (env : Env) (w : Rat) (sh : Shipper)
    (rec : List (String × Json)) (s : Sys) (tokv : Json) (s1 : Sys)
    (htok : getAccessToken env s = (.ok tokv, s1))
    (h200 : (env.responses s1.nCalls).statusCode = 200) :
    ((parseRateQuotes (env.responses s1.nCalls).body none).isEmpty = false →
      (getRate env w sh rec none s).1 =
        .ok (parseRateQuotes (env.responses s1.nCalls).body none)) ∧
    ((parseRateQuotes (env.responses s1.nCalls).body none).isEmpty = true →
      (getRate env w sh rec none s).1 =
        .error (.httpError 502 rateMissingDetail)) := by
  have h := getRate_result_none env w sh rec s tokv s1 htok h200
  constructor
  · intro hne
    rw [h, if_neg (by simp [hne])]
  · intro he
    rw [h, if_pos (by simp [he])]

/-- Witness for claim C5 on the 3-entry response: the two parsed quotes come
back as the result. -/
theorem claim_C5_witness :
    (getRate envRates3 5 shA [] none Sys.init).1 =
      .ok [ { serviceType := .str ("FIP"), amount := 10, currency := .str ("EUR") },
            { serviceType := .str ("FIRST"), amount := 20, currency := .str ("USD") } ] := by
  have h := (claim_C5 envRates3 5 shA [] Sys.init (.str ("T")) _
    (getAccessToken_fresh_ok envRates3 Sys.init ("T") 3600
      (by simp [Sys.init, truthy]) rfl (by decide)) rfl).1 rfl
  exact h.trans (by rfl)


/-- Claim C1 under the code defect: every code outside the forward map is
rejected by both operations with the 400 Unsupported-service HTTPException
before any token acquisition or outbound call (the state, and with it the
call trace, is untouched); every mapped code passes validation in both
operations and quote proceeds to the carrier — but ship, after accepting the
code, aborts on the unbound name actual_service before any outbound call,
so the "accept it and proceed" half fails for ship (the failing input of
the last conjunct). -/
theorem claim_C1 :
    (∀ (env : Env) (w : Rat) (sh : Shipper) (rec : List (String × Json))
        (st : String) (s : Sys), st ≠ "" →
        smLookup SERVICE_TYPE_MAP st = none →
        getRate env w sh rec (some st) s =
          (.error (.httpError 400 unsupportedDetail), s)) ∧
    (∀ (env : Env) (id : Int) (dest st : String)
        (rec : List (String × Json)) (sh : Shipper) (ic : Bool)
        (co : List (List (String × Json))) (br : Option Shipper)
        (bo tpc : Bool) (em : List String)
        (etd : List (List (String × Json))) (ir : Bool) (rr : Option String)
        (s : Sys), smLookup SERVICE_TYPE_MAP st = none →
        createShipment env id dest st rec sh ic co br bo tpc em etd ir rr s =
          (.error (.httpError 400 unsupportedDetail), s)) ∧
    ((getRate envRates3 5 shA [] (some ("FIP")) Sys.init).1 =
      .ok [ { serviceType := .str ("FIP"), amount := 10, currency := .str ("EUR") },
            { serviceType := .str ("FIP"), amount := 20, currency := .str ("USD") } ]) ∧
    (createShipment envTokA 7 ("Berlin") ("FIP") [] shA false [] none false
        false [] [] false none Sys.init =
      (.error (.nameError ("actual_service")), Sys.init)) := by
  refine ⟨?_, ?_, rfl, rfl⟩
  · intro env w sh rec st s hne hnone
    unfold getRate
    rw [if_pos]
    exact ⟨by simpa [truthyOptStr] using hne, by simp [hnone]⟩
  · intro env id dest st rec sh ic co br bo tpc em etd ir rr s hnone
    unfold createShipment
    rw [if_pos]
    simp [hnone]

/-- Witness for claim C1: the unmapped code XX is rejected by both
operations with no state change. -/
theorem claim_C1_witness :
    getRate envTokA 5 shA [] (some ("XX")) Sys.init =
      (.error (.httpError 400 unsupportedDetail), Sys.init) ∧
    createShipment envTokA 7 ("Berlin") ("XX") [] shA false [] none false
        false [] [] false none Sys.init =
      (.error (.httpError 400 unsupportedDetail), Sys.init) :=
  ⟨claim_C1.1 envTokA 5 shA [] ("XX") Sys.init (by decide) (by rfl),
   claim_C1.2.1 envTokA 7 ("Berlin") ("XX") [] shA false [] none false
     false [] [] false none Sys.init (by rfl)⟩

/-- Claim C8 under the code defect: the RETURNS return shipment produces no
request payload at all — the body construction aborts with NameError on the
unbound name actual_service (read at the serviceType entry, and again as the
eagerly evaluated default of the return-override) before any outbound call,
so the claimed serviceType and rma.reason values are never sent. -/
theorem claim_C8 :
    createShipment envTokA 9 ("Madrid") ("RETURNS") [("name", .str ("B"))]
        shA false [] none false false [] [] true (some ("RMA-1")) Sys.init =
      (.error (.nameError ("actual_service")), Sys.init) := rfl

/-- Claim C10 under the code defect: for every forward-mapped service type
(here with customs off, so the commodity preamble cannot raise) the body
construction reads the unbound name actual_service and create_shipment
aborts with NameError, with no outbound HTTP call and no state change —
evaluation never reaches the transport. -/
theorem claim_C10 :
    (∀ (env : Env) (id : Int) (dest st : String)
        (rec : List (String × Json)) (sh : Shipper) (br : Option Shipper)
        (bo tpc : Bool) (em : List String)
        (etd : List (List (String × Json))) (ir : Bool) (rr : Option String)
        (s : Sys), (smLookup SERVICE_TYPE_MAP st).isSome →
        createShipment env id dest st rec sh false [] br bo tpc em etd ir rr s =
          (.error (.nameError ("actual_service")), s)) ∧
    createShipment envTokA 42 ("Paris") ("PO") [("name", .str ("A"))] shA
        false [] none false false [] [] false none Sys.init =
      (.error (.nameError ("actual_service")), Sys.init) := by
  refine ⟨?_, rfl⟩
  intro env id dest st rec sh br bo tpc em etd ir rr s hsome
  have hnn : (smLookup SERVICE_TYPE_MAP st).isNone = false := by
    cases hs : smLookup SERVICE_TYPE_MAP st
    · rw [hs] at hsome; simp at hsome
    · simp
  unfold createShipment
  rw [if_neg (by simp [hnn])]
  rfl

/-- Witness for claim C10 at the mapped code FIE. -/
theorem claim_C10_witness :
    createShipment envTokA 43 ("Rome") ("FIE") [] shA false [] none false
        false [] [] false none Sys.init =
      (.error (.nameError ("actual_service")), Sys.init) :=
  claim_C10.1 envTokA 43 ("Rome") ("FIE") [] shA none false false [] []
    false none Sys.init (by rfl)


theorem fallbackLabelText_ne_empty (id : Int) (dest svc : String) :
    fallbackLabelText id dest svc ≠ "" := by
  intro h
  have h2 := congrArg String.length h
  simp [fallbackLabelText, String.length_append] at h2
  exact (by decide : ¬ ("FedEx Shipment\nID: ".length = 0)) h2.1.1.1.1.1

/-- Claim C7: for every success-status shipment-creation response the
handler writes exactly one file at the deterministic path
labels/label_<id>.pdf; when label bytes could not be extracted the file
content is the non-empty textual fallback naming the shipment id, the
destination and the service type; the operation succeeds whenever a
tracking number is present; and any failure is due to a missing tracking
number, never to failed label extraction. -/
theorem claim_C7 (r : HttpResponse) (id : Int) (dest svc : String) (s : Sys)
    (hok : r.statusCode = 200 ∨ r.statusCode = 201) :
    (∃ c, (shipResponseHandle r id dest svc s).2.labels =
        s.labels ++ [{ path := labelPath id, content := c }]) ∧
    (extractLabelBytes r.body = none →
      (shipResponseHandle r id dest svc s).2.labels =
        s.labels ++
          [{ path := labelPath id,
             content := .text (fallbackLabelText id dest svc) }] ∧
      fallbackLabelText id dest svc ≠ "") ∧
    (truthy (extractTracking r.body) →
      (shipResponseHandle r id dest svc s).1 =
        .ok (extractTracking r.body, labelPath id)) ∧
    (∀ e, (shipResponseHandle r id dest svc s).1 = .error e →
      ¬ truthy (extractTracking r.body)) := by
  have hcond : ¬ (r.statusCode ≠ 200 ∧ r.statusCode ≠ 201) := by
    rcases hok with h | h <;> simp [h]
  unfold shipResponseHandle
  rw [if_neg hcond]
  simp only [saveLabel]
  refine ⟨?_, ?_, ?_, ?_⟩
  · cases hb : extractLabelBytes r.body with
    | none => exact ⟨_, by simp only [hb]; split <;> rfl⟩
    | some bs =>
      cases bs with
      | nil => exact ⟨_, by simp only [hb]; split <;> rfl⟩
      | cons b rest => exact ⟨_, by simp only [hb]; split <;> rfl⟩
  · intro hb
    refine ⟨by simp only [hb]; split <;> rfl, fallbackLabelText_ne_empty id dest svc⟩
  · intro htr
    simp [htr]
  · intro e he
    intro htr
    simp [htr] at he

/-- A successful shipment-creation response carrying a tracking number and
no encodedLabel field anywhere. -/
def shipRespNoLabel : HttpResponse :=
  { statusCode := 200, text := "created",
    body := .obj [("output", .obj [("transactionShipments", .arr [
      .obj [("masterTrackingNumber", .str ("794000000000"))] ])])] }

/-- Witness for claim C7 on a response with no encodedLabel: the call
succeeds and the textual fallback label is written at the deterministic
path. -/
theorem claim_C7_witness :
    (shipResponseHandle shipRespNoLabel 7 ("Berlin") ("FIP") Sys.init).1 =
      .ok (.str ("794000000000"), labelPath 7) ∧
    (shipResponseHandle shipRespNoLabel 7 ("Berlin") ("FIP") Sys.init).2.labels =
      [{ path := labelPath 7,
         content := .text (fallbackLabelText 7 ("Berlin") ("FIP")) }] := by
  have h := claim_C7 shipRespNoLabel 7 ("Berlin") ("FIP") Sys.init (Or.inl rfl)
  exact ⟨(h.2.2.1 (by decide)).trans (by rfl), ((h.2.1 rfl).1).trans (by rfl)⟩

/-- Claim C6 on the intended reading of the rate payload (the literal as
written is brace-unbalanced and the module fails to compile, so this
property holds of rateRequestBody, the builder under the unique well-formed
reading of the literal): the requested shipment always carries the shipper
block, the destination postal code and country, the KG weight, the EUR
preferred currency and the ACCOUNT and LIST rate-request-type flags, and
carries the carrier service-type string exactly when a truthy specific
service was requested. -/
theorem claim_C6 (acct : FedExAccount) (w : Rat) (sh : Shipper)
    (rec : List (String × Json)) (st : Option String) :
    rateRequestBody acct w sh rec st =
      .obj [ ("accountNumber", .obj [("value", .str acct.accountNumber)]),
             ("requestedShipment", .obj (rateRequestedShipment w sh rec st)) ] ∧
    jlookup (rateRequestedShipment w sh rec st) ("shipper") =
      some (shipperAddress sh) ∧
    jlookup (rateRequestedShipment w sh rec st) ("recipient") =
      some (.obj [("address", .obj [
        ("postalCode", (jlookup rec ("postal_code")).getD .null),
        ("countryCode", (jlookup rec ("country")).getD .null) ])]) ∧
    jlookup (rateRequestedShipment w sh rec st) ("rateRequestType") =
      some (.arr [.str ("ACCOUNT"), .str ("LIST")]) ∧
    jlookup (rateRequestedShipment w sh rec st) ("requestedPackageLineItems") =
      some (.arr [.obj [("weight",
        .obj [("units", .str ("KG")), ("value", .num w)])]]) ∧
    jlookup (rateRequestedShipment w sh rec st) ("preferredCurrency") =
      some (.str ("EUR")) ∧
    (truthyOptStr st →
      jlookup (rateRequestedShipment w sh rec st) ("serviceType") =
        some (.str ((smLookup SERVICE_TYPE_MAP (st.getD (""))).getD ("")))) ∧
    (¬ truthyOptStr st →
      jlookup (rateRequestedShipment w sh rec st) ("serviceType") = none) := by
  cases ht : truthyOptStr st <;>
    refine ⟨rfl, ?_, ?_, ?_, ?_, ?_, ?_, ?_⟩ <;>
      simp [rateRequestedShipment, ht, jlookup]

/-- Witness for claim C6 at a requested FIP service and at no requested
service. -/
theorem claim_C6_witness :
    jlookup (rateRequestedShipment 5 shA [] (some ("FIP"))) ("serviceType") =
      some (.str ("INTERNATIONAL_PRIORITY")) ∧
    jlookup (rateRequestedShipment 5 shA [] none) ("serviceType") = none := by
  obtain ⟨-, -, -, -, -, -, hst1, -⟩ := claim_C6 acctA 5 shA [] (some ("FIP"))
  obtain ⟨-, -, -, -, -, -, -, hst2⟩ := claim_C6 acctA 5 shA [] none
  exact ⟨(hst1 (by decide)).trans (by rfl), hst2 (by decide)⟩


theorem growth_token (env : Env) (s : Sys) :
    ∃ dA dC, (getAccessToken env s).2.audit = s.audit ++ dA ∧
      (getAccessToken env s).2.calls = s.calls ++ dC ∧
      dA.length = dC.length := by
  by_cases h : truthy s.accessToken ∧ env.now < s.tokenExpiry - 30
  · rw [getAccessToken_hit env s h.1 h.2]
    exact ⟨[], [], by simp, by simp, rfl⟩
  · obtain ⟨h1, h2, h3⟩ := getAccessToken_miss_trace env s h
    exact ⟨_, _, h3, h2, rfl⟩

theorem growth_rate (env : Env) (w : Rat) (sh : Shipper)
    (rec : List (String × Json)) (st : Option String) (s : Sys) :
    ∃ dA dC, (getRate env w sh rec st s).2.audit = s.audit ++ dA ∧
      (getRate env w sh rec st s).2.calls = s.calls ++ dC ∧
      dA.length = dC.length := by
  unfold getRate
  split
  · exact ⟨[], [], by simp, by simp, rfl⟩
  · obtain ⟨dA, dC, hA, hC, hl⟩ := growth_token env s
    rcases htok : getAccessToken env s with ⟨res, s1⟩
    rw [htok] at hA hC
    cases res with
    | error e => exact ⟨dA, dC, hA, hC, hl⟩
    | ok tokv =>
      replace hA : s1.audit = s.audit ++ dA := hA
      replace hC : s1.calls = s.calls ++ dC := hC
      simp only [httpPost, logInteraction]
      refine ⟨dA ++ [rateAuditRec env (env.responses s1.nCalls)
          (rateRequestBody env.account w sh rec st)],
        dC ++ [rateCallRec env.account w sh rec st], ?_, ?_, ?_⟩
      · split
        · simp [hA, rateAuditRec]
        · split
          · simp [hA, rateAuditRec]
          · split
            · simp [hA, rateAuditRec]
            · simp [hA, rateAuditRec]
      · split
        · simp [hC, rateCallRec]
        · split
          · simp [hC, rateCallRec]
          · split
            · simp [hC, rateCallRec]
            · simp [hC, rateCallRec]
      · simp [hl]

theorem growth_ship (env : Env) (id : Int) (dest st : String)
    (rec : List (String × Json)) (sh : Shipper) (ic : Bool)
    (co : List (List (String × Json))) (br : Option Shipper) (bo tpc : Bool)
    (em : List String) (etd : List (List (String × Json))) (ir : Bool)
    (rr : Option String) (s : Sys) :
    ∃ dA dC,
      (createShipment env id dest st rec sh ic co br bo tpc em etd ir rr s).2.audit =
        s.audit ++ dA ∧
      (createShipment env id dest st rec sh ic co br bo tpc em etd ir rr s).2.calls =
        s.calls ++ dC ∧
      dA.length = dC.length := by
  unfold createShipment
  split
  · exact ⟨[], [], by simp, by simp, rfl⟩
  · split
    · exact ⟨[], [], by simp, by simp, rfl⟩
    · exact ⟨[], [], by simp, by simp, rfl⟩

theorem growth_track (env : Env) (tn : String) (s : Sys) :
    ∃ dA dC, (trackShipment env tn s).2.audit = s.audit ++ dA ∧
      (trackShipment env tn s).2.calls = s.calls ++ dC ∧
      dA.length = dC.length := by
  unfold trackShipment
  obtain ⟨dA, dC, hA, hC, hl⟩ := growth_token env s
  rcases htok : getAccessToken env s with ⟨res, s1⟩
  rw [htok] at hA hC
  cases res with
  | error e => exact ⟨dA, dC, hA, hC, hl⟩
  | ok tokv =>
    replace hA : s1.audit = s.audit ++ dA := hA
    replace hC : s1.calls = s.calls ++ dC := hC
    simp only [httpPost, logInteraction]
    refine ⟨dA ++
        [{ accountId := some env.account.id,
           endpoint := "/track/v1/trackingnumbers", method := "POST",
           request := trackBody tn, response := (env.responses s1.nCalls).text,
           statusCode := some (env.responses s1.nCalls).statusCode }],
      dC ++
        [{ endpoint := "/track/v1/trackingnumbers",
           payload := trackBody tn }], ?_, ?_, ?_⟩
    · split
      · simp [hA]
      · simp [hA]
    · split
      · simp [hC]
      · simp [hC]
    · simp [hl]

theorem growth_spod (env : Env) (tn sp : String) (s : Sys) :
    ∃ dA dC, (requestSpod env tn sp s).2.audit = s.audit ++ dA ∧
      (requestSpod env tn sp s).2.calls = s.calls ++ dC ∧
      dA.length = dC.length := by
  unfold requestSpod
  obtain ⟨dA, dC, hA, hC, hl⟩ := growth_token env s
  rcases htok : getAccessToken env s with ⟨res, s1⟩
  rw [htok] at hA hC
  cases res with
  | error e => exact ⟨dA, dC, hA, hC, hl⟩
  | ok tokv =>
    replace hA : s1.audit = s.audit ++ dA := hA
    replace hC : s1.calls = s.calls ++ dC := hC
    simp only [httpPost, logInteraction]
    refine ⟨dA ++
        [{ accountId := some env.account.id,
           endpoint := "/track/v1/proof-of-delivery", method := "POST",
           request := spodBody tn, response := (env.responses s1.nCalls).text,
           statusCode := some (env.responses s1.nCalls).statusCode }],
      dC ++
        [{ endpoint := "/track/v1/proof-of-delivery",
           payload := spodBody tn }], ?_, ?_, ?_⟩
    · split
      all_goals try split
      all_goals try split
      all_goals simp [hA]
    · split
      all_goals try split
      all_goals try split
      all_goals simp [hC]
    · simp [hl]

theorem getRate_fail_result (env : Env) (w : Rat) (sh : Shipper)
    (rec : List (String × Json)) (st : Option String) (s : Sys)
    (tokv : Json) (s1 : Sys)
    (hv : ¬ (truthyOptStr st ∧ (smLookup SERVICE_TYPE_MAP (st.getD (""))).isNone))
    (htok : getAccessToken env s = (.ok tokv, s1))
    (hst : (env.responses s1.nCalls).statusCode ≠ 200) :
    (getRate env w sh rec st s).1 =
      .error (.httpError 502
        ("FedEx rate error: " ++ (env.responses s1.nCalls).text)) := by
  unfold getRate
  rw [if_neg hv, htok]
  simp [httpPost, logInteraction, hst]


/-- Claim C9: audit completeness.  Every operation grows the audit trail by
exactly as many records as outbound HTTP calls it makes (token manager,
rate, shipment, tracking, proof-of-delivery); a cached-token rate call makes
exactly one call and one record, a fresh-token rate call exactly two of
each; and the audit record of a failing carrier call is persisted, carrying
the failing status, even though the call errors — the record is written
before the gateway inspects the status. -/
theorem claim_C9 :
    (∀ (env : Env) (s : Sys), ∃ dA dC,
      (getAccessToken env s).2.audit = s.audit ++ dA ∧
      (getAccessToken env s).2.calls = s.calls ++ dC ∧
      dA.length = dC.length) ∧
    (∀ (env : Env) (w : Rat) (sh : Shipper) (rec : List (String × Json))
        (st : Option String) (s : Sys), ∃ dA dC,
      (getRate env w sh rec st s).2.audit = s.audit ++ dA ∧
      (getRate env w sh rec st s).2.calls = s.calls ++ dC ∧
      dA.length = dC.length) ∧
    (∀ (env : Env) (id : Int) (dest st : String) (rec : List (String × Json))
        (sh : Shipper) (ic : Bool) (co : List (List (String × Json)))
        (br : Option Shipper) (bo tpc : Bool) (em : List String)
        (etd : List (List (String × Json))) (ir : Bool) (rr : Option String)
        (s : Sys), ∃ dA dC,
      (createShipment env id dest st rec sh ic co br bo tpc em etd ir rr s).2.audit =
        s.audit ++ dA ∧
      (createShipment env id dest st rec sh ic co br bo tpc em etd ir rr s).2.calls =
        s.calls ++ dC ∧
      dA.length = dC.length) ∧
    (∀ (env : Env) (tn : String) (s : Sys), ∃ dA dC,
      (trackShipment env tn s).2.audit = s.audit ++ dA ∧
      (trackShipment env tn s).2.calls = s.calls ++ dC ∧
      dA.length = dC.length) ∧
    (∀ (env : Env) (tn sp : String) (s : Sys), ∃ dA dC,
      (requestSpod env tn sp s).2.audit = s.audit ++ dA ∧
      (requestSpod env tn sp s).2.calls = s.calls ++ dC ∧
      dA.length = dC.length) ∧
    (∀ (env : Env) (w : Rat) (sh : Shipper) (rec : List (String × Json))
        (st : Option String) (s : Sys),
      truthy s.accessToken → env.now < s.tokenExpiry - 30 →
      ¬ (truthyOptStr st ∧ (smLookup SERVICE_TYPE_MAP (st.getD (""))).isNone) →
      (getRate env w sh rec st s).2.audit =
        s.audit ++ [rateAuditRec env (env.responses s.nCalls)
          (rateRequestBody env.account w sh rec st)] ∧
      (getRate env w sh rec st s).2.calls =
        s.calls ++ [rateCallRec env.account w sh rec st]) ∧
    (∀ (env : Env) (w : Rat) (sh : Shipper) (rec : List (String × Json))
        (st : Option String) (s : Sys) (tok : String) (E : Rat),
      ¬ (truthy s.accessToken ∧ env.now < s.tokenExpiry - 30) →
      env.responses s.nCalls = authOkResp tok E → tok ≠ "" →
      ¬ (truthyOptStr st ∧ (smLookup SERVICE_TYPE_MAP (st.getD (""))).isNone) →
      (getRate env w sh rec st s).2.audit =
        s.audit ++ [oauthAudit env (authOkResp tok E),
          rateAuditRec env (env.responses (s.nCalls + 1))
            (rateRequestBody env.account w sh rec st)] ∧
      (getRate env w sh rec st s).2.calls =
        s.calls ++ [oauthCall env.account, rateCallRec env.account w sh rec st]) ∧
    (∀ (env : Env) (w : Rat) (sh : Shipper) (rec : List (String × Json))
        (st : Option String) (s : Sys),
      truthy s.accessToken → env.now < s.tokenExpiry - 30 →
      ¬ (truthyOptStr st ∧ (smLookup SERVICE_TYPE_MAP (st.getD (""))).isNone) →
      (env.responses s.nCalls).statusCode ≠ 200 →
      (getRate env w sh rec st s).1 =
        .error (.httpError 502
          ("FedEx rate error: " ++ (env.responses s.nCalls).text)) ∧
      (getRate env w sh rec st s).2.audit =
        s.audit ++ [rateAuditRec env (env.responses s.nCalls)
          (rateRequestBody env.account w sh rec st)]) := by
  refine ⟨growth_token, growth_rate, growth_ship, growth_track, growth_spod,
    ?_, ?_, ?_⟩
  · intro env w sh rec st s h1 h2 hv
    have h := getRate_sys env w sh rec st s s.accessToken s hv
      (getAccessToken_hit env s h1 h2)
    exact ⟨by rw [h], by rw [h]⟩
  · intro env w sh rec st s tok E hmiss hr htok hv
    have hfresh := getAccessToken_fresh_ok env s tok E hmiss hr htok
    have h := getRate_sys env w sh rec st s (.str tok) _ hv hfresh
    constructor
    · rw [h]; simp
    · rw [h]; simp
  · intro env w sh rec st s h1 h2 hv hst
    have hhit := getAccessToken_hit env s h1 h2
    have h := getRate_sys env w sh rec st s s.accessToken s hv hhit
    exact ⟨getRate_fail_result env w sh rec st s s.accessToken s hv hhit hst,
      by rw [h]⟩

/-- A client state already holding a valid cached token. -/
def sysTok : Sys :=
  { accessToken := .str ("T"), tokenExpiry := 4600, nCalls := 0,
    calls := [], audit := [], labels := [] }

/-- Witness for claim C9: a fresh-token rate call makes two calls and two
records, a cached-token rate call one and one. -/
theorem claim_C9_witness :
    (getRate envRates3 5 shA [] none Sys.init).2.audit.length = 2 ∧
    (getRate envRates3 5 shA [] none Sys.init).2.calls.length = 2 ∧
    (getRate envRates3 5 shA [] none sysTok).2.audit.length = 1 ∧
    (getRate envRates3 5 shA [] none sysTok).2.calls.length = 1 := by
  have h7 := claim_C9.2.2.2.2.2.2.1 envRates3 5 shA [] none Sys.init ("T") 3600
    (by simp [Sys.init, truthy]) rfl (by decide) (by simp [truthyOptStr])
  have h6 := claim_C9.2.2.2.2.2.1 envRates3 5 shA [] none sysTok
    (by simp [sysTok, truthy]) (by norm_num [sysTok, envRates3])
    (by simp [truthyOptStr])
  refine ⟨?_, ?_, ?_, ?_⟩
  · rw [h7.1]; rfl
  · rw [h7.2]; rfl
  · rw [h6.1]; rfl
  · rw [h6.2]; rfl

end FedExSpec



